import Mathlib

/-
Verification development for the `paggo_case` repository: a document-upload
service (NestJS backend) that runs text extraction (OCR / PDF text layer) over
an uploaded document, generates an optional summary, and lets the owning user
ask an AI assistant about the extracted text.

The embedding below is a shallow model of the backend services:
  * `src/backend/src/ocr/ocr.service.ts`        -> `extractText`
  * `src/backend/src/llm/llm.service.ts`        -> `generateExplanation`, `answerQuery`
  * `src/backend/src/documents/documents.service.ts`
        -> `processOCR`, `reprocessOCR`, `explainDocument`, `queryDocument`,
           `downloadDocument` (report building)

Database rows are modelled per document id: the Document row, the (at most
one, by the unique index `ocr_results_documentId_key`) OCRResult row, and the
list of LLMInteraction rows kept newest-first (the service always reads them
with `orderBy createdAt desc`).  External calls (filesystem, pdf-parse,
tesseract, OpenAI) and database engine availability are injected as explicit
outcome parameters; Prisma's `update` on a missing row is modelled as a
thrown error, and `upsert` as create-or-update, matching Prisma semantics.

JavaScript string functions are re-implemented over `List Char` so that every
definition evaluates inside the kernel; JS truthiness tests on strings and
numbers (`""` and `0` are falsy) are modelled explicitly at each use site.
-/

namespace PaggoCase

/-- Single-quote character, used by the summary clean-up regex. -/
def squote : Char := Char.ofNat 39

/-- Lowercase a string character-wise (JS `toLowerCase`). -/
def lowerStr (s : String) : String := ⟨s.data.map Char.toLower⟩

/-- JS `String.prototype.endsWith`. -/
def strEndsWith (s suf : String) : Bool := decide (suf.data <:+ s.data)

/-- Whitespace test for `trim`. -/
def isWs (c : Char) : Bool := c.isWhitespace

/-- JS `String.prototype.trim`: strip leading and trailing whitespace. -/
def trimStr (s : String) : String :=
  ⟨((s.data.dropWhile isWs).reverse.dropWhile isWs).reverse⟩

/-- JS `String.prototype.substring(0, n)`: the first `n` characters. -/
def takeStr (n : Nat) (s : String) : String := ⟨s.data.take n⟩

/-- Upload / extraction status values used by both `documents.uploadStatus`
and `ocr_results.status`. -/
inductive Status where
  | PENDING
  | PROCESSING
  | COMPLETED
  | FAILED
deriving DecidableEq, Repr

/-- Output contract of the extraction adapter: the `OCRResult` interface of
`ocr.service.ts` (`text`, `confidence`, `processingTime` in ms). -/
structure OCRResult where
  text : String
  confidence : Rat
  processingTime : Rat
deriving DecidableEq, Repr

/-- Outcomes of the external calls made by `OcrService.extractText`:
filesystem access/read, the pdf-parse module and its `getText`, and the
tesseract recognizer.  `pdfText` is the `pdfData.text` field (absent or a
string); `tesseract` yields the recognized text and the engine confidence
(absent models `undefined`).  `elapsedMs` is the wall-clock
`Date.now() - startTime` observed by the call. -/
structure ExtractEnv where
  fileAccessOk : Bool
  readFile : Except String Unit
  pdfParseAvailable : Bool
  pdfText : Except String (Option String)
  tesseract : Except String (String × Option Rat)
  elapsedMs : Rat

/-- The PDF-branch test of `extractText`:
`mimeType === 'application/pdf' || filePath.toLowerCase().endsWith('.pdf')`. -/
def isPdfCall (filePath : String) (mimeType : Option String) : Bool :=
  mimeType = some "application/pdf" || strEndsWith (lowerStr filePath) ".pdf"

/-- PDF branch of `OcrService.extractText`: read the file, load pdf-parse,
extract the embedded text layer.  Its inner `catch` rethrows with the
`PDF text extraction failed:` prefix.  `pdfData.text ? pdfData.text.trim() : ''`
is a JS truthiness test: a missing or empty text layer yields `""`.
Confidence is the constant 100. -/
def pdfExtract (env : ExtractEnv) : Except String OCRResult :=
  match env.readFile with
  | .error e => .error ("PDF text extraction failed: " ++ e)
  | .ok _ =>
    if !env.pdfParseAvailable then
      .error ("PDF text extraction failed: pdf-parse PDFParse class not found")
    else
      match env.pdfText with
      | .error e => .error ("PDF text extraction failed: " ++ e)
      | .ok t =>
        .ok { text := match t with
                | none => ""
                | some s => if s = "" then "" else trimStr s
            , confidence := 100
            , processingTime := env.elapsedMs }

/-- Image branch of `OcrService.extractText`: read the file and run the
tesseract worker; a tesseract failure is rethrown with a compatibility
message.  `confidence || 0` defaults a missing (or zero) confidence to 0. -/
def imageExtract (env : ExtractEnv) : Except String OCRResult :=
  match env.readFile with
  | .error e => .error e
  | .ok _ =>
    match env.tesseract with
    | .error e =>
      .error ("OCR processing failed: Tesseract.js encountered an error. This may be due to Node.js environment compatibility. Error: " ++ e)
    | .ok (text, conf) =>
      .ok { text := trimStr text
          , confidence := conf.getD 0
          , processingTime := env.elapsedMs }

/-- `OcrService.extractText(filePath, mimeType)`.  The pre-flight `fs.access`
check failure is only logged (warn) and never alters the outcome, so
`fileAccessOk` is ignored; the outer `catch` wraps any error with the
`OCR processing failed:` prefix. -/
def extractText (env : ExtractEnv) (filePath : String) (mimeType : Option String) :
    Except String OCRResult :=
  match (if isPdfCall filePath mimeType then pdfExtract env else imageExtract env) with
  | .ok r => .ok r
  | .error e => .error ("OCR processing failed: " ++ e)

theorem pdfExtract_ok_confidence (env : ExtractEnv) (r : OCRResult)
    (h : pdfExtract env = .ok r) : r.confidence = 100 := by
  unfold pdfExtract at h
  split at h
  · exact absurd h (by simp)
  · split at h
    · exact absurd h (by simp)
    · split at h
      · exact absurd h (by simp)
      · rw [Except.ok.injEq] at h
        subst h
        rfl

/-- C5: a call whose MIME type is `application/pdf` or whose (lowercased)
file path ends in `.pdf` takes the PDF branch, so any successful outcome has
confidence exactly 100; and when the file is readable, pdf-parse loads and
`getText` succeeds with an absent or empty text layer, the call succeeds
(it is not an error) with `text = ""` and confidence 100. -/
theorem pdf_extraction_confidence_and_empty_text :
    (∀ (env : ExtractEnv) (fp : String) (mt : Option String) (r : OCRResult),
        isPdfCall fp mt = true → extractText env fp mt = .ok r →
        r.confidence = 100)
  ∧ (∀ (env : ExtractEnv) (fp : String) (mt : Option String),
        isPdfCall fp mt = true → env.readFile = .ok () →
        env.pdfParseAvailable = true →
        (env.pdfText = .ok none ∨ env.pdfText = .ok (some "")) →
        extractText env fp mt =
          .ok { text := "", confidence := 100, processingTime := env.elapsedMs }) := by
  constructor
  · intro env fp mt r hpdf h
    unfold extractText at h
    rw [hpdf] at h
    simp only [if_true] at h
    split at h
    · rename_i r' hr'
      rw [Except.ok.injEq] at h
      exact h ▸ pdfExtract_ok_confidence env r' hr'
    · exact absurd h (by simp)
  · intro env fp mt hpdf hread havail hempty
    unfold extractText pdfExtract
    rw [hpdf, hread, havail]
    rcases hempty with h | h <;> simp [h]

/-- Witness for C5 at a concrete input: a scanned PDF (`scan.pdf`,
`application/pdf`) whose text layer is absent. -/
theorem pdf_extraction_confidence_and_empty_text_witness :
    extractText
      { fileAccessOk := true, readFile := .ok (), pdfParseAvailable := true
      , pdfText := .ok none, tesseract := .error "unused", elapsedMs := 42 }
      "scan.pdf" (some "application/pdf") =
      .ok { text := "", confidence := 100, processingTime := 42 } := by
  exact (pdf_extraction_confidence_and_empty_text).2
    { fileAccessOk := true, readFile := .ok (), pdfParseAvailable := true
    , pdfText := .ok none, tesseract := .error "unused", elapsedMs := 42 }
    "scan.pdf" (some "application/pdf") (by decide) rfl rfl (Or.inl rfl)

/-- Interaction types of the `llm_interactions` table. -/
inductive InteractionType where
  | EXPLANATION
  | QUERY
deriving DecidableEq, Repr

/-- The `ocr_results` row for a document (at most one per document, by the
unique index `ocr_results_documentId_key`). -/
structure OCRRow where
  extractedText : String
  summary : Option String
  confidence : Option Rat
  processingTime : Option Rat
  status : Status
  error : Option String
deriving DecidableEq, Repr

/-- The `documents` row.  `createdAt` holds the already-rendered ISO
timestamp (date formatting is outside the model). -/
structure DocRow where
  userId : String
  originalName : String
  mimeType : String
  fileSize : Nat
  filePath : String
  uploadStatus : Status
  createdAt : String
deriving DecidableEq, Repr

/-- An `llm_interactions` row; `createdAt` holds the rendered
`toLocaleString()` date. -/
structure LLMInteraction where
  type : InteractionType
  prompt : String
  response : String
  tokensUsed : Option Nat
  model : Option String
  createdAt : String
deriving DecidableEq, Repr

/-- Database state relevant to one document id: its Document row, its (at
most one) OCRResult row, and its LLMInteraction rows newest-first (the
service always reads them with `orderBy createdAt desc`, and every insert is
the newest row, hence prepending). -/
structure DbState where
  doc : Option DocRow
  ocr : Option OCRRow
  interactions : List LLMInteraction
deriving DecidableEq, Repr

/-- Chat roles of the OpenAI messages built by `LlmService`. -/
inductive ChatRole where
  | system
  | user
  | assistant
deriving DecidableEq, Repr

/-- One chat-completion message. -/
structure ChatMessage where
  role : ChatRole
  content : String
deriving DecidableEq, Repr

/-- The `LLMResponse` interface of `llm.service.ts`. -/
structure LLMResponse where
  text : String
  tokensUsed : Option Nat
  model : Option String
deriving DecidableEq, Repr

/-- The chat-completion endpoint, abstracted as an oracle from the message
list to an outcome; it covers both the unconfigured-key throw and network
failures as `.error`. -/
abbrev ChatOracle := List ChatMessage → Except String LLMResponse

/-- System message content of `generateExplanation`. -/
def explainSystemContent : String :=
  "You are a helpful assistant that explains documents clearly and concisely. Focus on extracting and explaining the key information."

/-- The context-free explanation prompt of `generateExplanation`. -/
def generalExplanationPrompt (extractedText : String) : String :=
  "Based on the following extracted text from a document, provide a clear and comprehensive explanation. Identify key information, dates, amounts, parties involved, and any important details.\n\nExtracted text:\n"
    ++ extractedText

/-- The prompt built by `generateExplanation`: `context ? withContext : general`
is a JS truthiness test, so an absent or empty context selects the general
prompt. -/
def explanationPrompt (extractedText : String) (context : Option String) : String :=
  match context with
  | some c =>
    if c = "" then generalExplanationPrompt extractedText
    else
      "Based on the following extracted text from a document, provide a clear and comprehensive explanation. Context: "
        ++ c ++ "\n\nExtracted text:\n" ++ extractedText
  | none => generalExplanationPrompt extractedText

/-- `LlmService.generateExplanation(extractedText, context?)`: one system
message plus one user message holding the built prompt. -/
def generateExplanation (llm : ChatOracle) (extractedText : String)
    (context : Option String) : Except String LLMResponse :=
  llm [⟨ChatRole.system, explainSystemContent⟩,
       ⟨ChatRole.user, explanationPrompt extractedText context⟩]

/-- System message content of `answerQuery`. -/
def querySystemContent : String :=
  "You are a helpful assistant that answers questions about documents. Use only the information provided in the extracted text. If information is not available, say so."

/-- Leading text of the final user prompt of `answerQuery` (the apostrophe of
the possessive is spelled via `squote`). -/
def queryPromptHead : String :=
  "Based on the following extracted text from a document, answer the user"
    ++ String.singleton squote
    ++ "s question. If the information is not available in the text, say so clearly.\n\nExtracted text:\n"

/-- The final user prompt of `answerQuery`: extracted text plus the literal
question. -/
def queryPrompt (extractedText query : String) : String :=
  queryPromptHead ++ extractedText ++ "\n\nUser question: " ++ query

/-- Context replay of `answerQuery`: the previous interactions (given
newest-first) are reversed, then each becomes a user turn (its prompt)
followed by an assistant turn (its response). -/
def interactionTurns (prev : List LLMInteraction) : List ChatMessage :=
  (prev.reverse.map
    (fun i => [⟨ChatRole.user, i.prompt⟩, ⟨ChatRole.assistant, i.response⟩])).flatten

/-- The full message list sent by `answerQuery`. -/
def answerQueryMessages (extractedText query : String)
    (prev : List LLMInteraction) : List ChatMessage :=
  ⟨ChatRole.system, querySystemContent⟩ ::
    (interactionTurns prev ++ [⟨ChatRole.user, queryPrompt extractedText query⟩])

/-- `LlmService.answerQuery(extractedText, query, previousInteractions)`. -/
def answerQuery (llm : ChatOracle) (extractedText query : String)
    (prev : List LLMInteraction) : Except String LLMResponse :=
  llm (answerQueryMessages extractedText query prev)

/-- The fixed summary instruction of `processOCR`. -/
def summaryPrompt : String :=
  "Based on this document, create a very brief, concise summary (one sentence, maximum 20 words) that describes what this document is about. Focus on the key purpose, subject, or main content. Examples:\n- \"Case for the company Charla for the JR AI Engineer role\"\n- \"Invoice from Company ABC for services totaling $X\"\n- \"Student academic transcript from University XYZ\"\n- \"Notebook purchase receipt from Store X for $Y\"\nKeep it very short and descriptive. Only describe what the document is, not all its details."

/-- Quote characters stripped by the summary clean-up regex. -/
def isQuoteChar (c : Char) : Bool := c = '"' || c = squote

/-- The regex replace of the summary clean-up in `processOCR`: its pattern
is anchored at the string edges, so it removes at most one leading and one
trailing quote character (double or single). -/
def stripEdgeQuotes (s : String) : String :=
  let l1 := match s.data with
    | c :: rest => if isQuoteChar c then rest else s.data
    | [] => []
  let l2 := match l1.reverse with
    | c :: rest => if isQuoteChar c then rest.reverse else l1
    | [] => l1
  ⟨l2⟩

/-- Summary clean-up of `processOCR`: strip surrounding quotes, trim, limit
to 150 characters. -/
def cleanSummary (s : String) : String := takeStr 150 (trimStr (stripEdgeQuotes s))

/-- Outcomes of the external calls made during one `processOCR` run: the
extraction adapter environment, the chat oracle, and the engine-level
availability of each Prisma call (a `false` models a thrown database error;
independently, `update` on a missing row always throws). -/
structure PipelineEnv where
  ext : ExtractEnv
  llm : ChatOracle
  updateDocProcessingOk : Bool
  findDocOk : Bool
  upsertOcrOk : Bool
  updateOcrCompletedOk : Bool
  updateDocCompletedOk : Bool
  updateDocFailedOk : Bool
  updateOcrFailedOk : Bool

/-- How one `processOCR` invocation ends: the success path ran to the end,
the catch block ran to the end, or an error escaped `processOCR` itself and
was only logged by the fire-and-forget `.catch` at the call site. -/
inductive RunOutcome where
  | completed
  | failedHandled (msg : String)
  | escaped (msg : String)
deriving DecidableEq, Repr

/-- The row built by the `create` arm of the `oCRResult.upsert` in
`processOCR`. -/
def emptyOcrRow : OCRRow :=
  { extractedText := "", summary := none, confidence := none
  , processingTime := none, status := Status.PROCESSING, error := none }

/-- The `try` body of `processOCR`: set the document PROCESSING, reload it,
upsert the OCRResult to PROCESSING, extract, optionally summarize
(non-fatal), persist the COMPLETED OCRResult, set the document COMPLETED.
Returns the state reached together with `.ok` or the thrown error. -/
def tryBody (p : PipelineEnv) (st : DbState) : DbState × Except String Unit :=
  if !p.updateDocProcessingOk then (st, .error "db: document.update failed") else
  match st.doc with
  | none => (st, .error "Record to update not found: document")
  | some d =>
  let st1 : DbState := { st with doc := some { d with uploadStatus := Status.PROCESSING } }
  if !p.findDocOk then (st1, .error "db: document.findUnique failed") else
  match st1.doc with
  | none => (st1, .error "Document not found")
  | some doc =>
  if !p.upsertOcrOk then (st1, .error "db: oCRResult.upsert failed") else
  let st2 : DbState := { st1 with ocr := some (match st1.ocr with
      | none => emptyOcrRow
      | some r => { r with status := Status.PROCESSING }) }
  match extractText p.ext doc.filePath (some doc.mimeType) with
  | .error e => (st2, .error e)
  | .ok out =>
  let summary : Option String :=
    if out.text ≠ "" ∧ (trimStr out.text).length > 0 then
      match generateExplanation p.llm (takeStr 3000 out.text) (some summaryPrompt) with
      | .ok resp => some (cleanSummary resp.text)
      | .error _ => none
    else none
  if !p.updateOcrCompletedOk then (st2, .error "db: oCRResult.update failed") else
  match st2.ocr with
  | none => (st2, .error "Record to update not found: oCRResult")
  | some r =>
  let st3 : DbState := { st2 with ocr := some { r with
      extractedText := out.text
    , summary := match summary with
        | some s => if s = "" then r.summary else some s
        | none => r.summary
    , confidence := some out.confidence
    , processingTime := some out.processingTime
    , status := Status.COMPLETED } }
  if !p.updateDocCompletedOk then (st3, .error "db: document.update failed") else
  match st3.doc with
  | none => (st3, .error "Record to update not found: document")
  | some d2 =>
  ({ st3 with doc := some { d2 with uploadStatus := Status.COMPLETED } }, .ok ())

/-- The `catch` block of `processOCR`: set the document FAILED, then update
(not upsert) the OCRResult to FAILED with the error message.  Either Prisma
call can itself throw — in particular `oCRResult.update` throws when no
OCRResult row exists — in which case the error escapes `processOCR`. -/
def catchBlock (p : PipelineEnv) (st : DbState) (msg : String) : DbState × RunOutcome :=
  if !p.updateDocFailedOk then (st, .escaped "db: document.update failed") else
  match st.doc with
  | none => (st, .escaped "Record to update not found: document")
  | some d =>
  let st1 : DbState := { st with doc := some { d with uploadStatus := Status.FAILED } }
  if !p.updateOcrFailedOk then (st1, .escaped "db: oCRResult.update failed") else
  match st1.ocr with
  | none => (st1, .escaped "Record to update not found: oCRResult")
  | some r =>
  ({ st1 with ocr := some { r with status := Status.FAILED, error := some msg } },
   RunOutcome.failedHandled msg)

/-- `DocumentsService.processOCR(documentId)`: run the try body; on a thrown
error run the catch block on the state reached so far. -/
def processOCR (p : PipelineEnv) (st : DbState) : DbState × RunOutcome :=
  match tryBody p st with
  | (st1, .ok _) => (st1, RunOutcome.completed)
  | (st1, .error msg) => catchBlock p st1 msg

/-- `DocumentsService.reprocessOCR(id, userId)`: verify existence and
ownership (`findOne`), delete any OCRResult rows, re-run `processOCR`.  The
real call is fire-and-forget; the model composes the run sequentially so the
returned outcome is the state after the new run has settled or escaped. -/
def reprocessOCR (p : PipelineEnv) (userId : String) (st : DbState) :
    DbState × Except String RunOutcome :=
  match st.doc with
  | none => (st, .error "Document not found")
  | some d =>
    if d.userId ≠ userId then (st, .error "Access denied")
    else
      let run := processOCR p { st with ocr := none }
      (run.1, .ok run.2)

theorem tryBody_ok_state (p : PipelineEnv) (st st' : DbState) (u : Unit)
    (h : tryBody p st = (st', Except.ok u)) :
    (∃ d, st'.doc = some d ∧ d.uploadStatus = Status.COMPLETED) ∧
    (∃ r, st'.ocr = some r ∧ r.status = Status.COMPLETED) ∧
    st'.interactions = st.interactions := by
  unfold tryBody at h
  dsimp only at h
  repeat' split at h
  all_goals obtain ⟨h1, h2⟩ := Prod.mk.injEq .. ▸ h
  all_goals first
    | exact Except.noConfusion h2
    | (subst h1; exact ⟨⟨_, rfl, rfl⟩, ⟨_, rfl, rfl⟩, rfl⟩)

theorem catchBlock_handled_state (p : PipelineEnv) (st st' : DbState) (msg m : String)
    (h : catchBlock p st msg = (st', RunOutcome.failedHandled m)) :
    m = msg ∧
    (∃ d, st'.doc = some d ∧ d.uploadStatus = Status.FAILED) ∧
    (∃ r, st'.ocr = some r ∧ r.status = Status.FAILED ∧ r.error = some msg) ∧
    st'.interactions = st.interactions := by
  unfold catchBlock at h
  dsimp only at h
  repeat' split at h
  all_goals obtain ⟨h1, h2⟩ := Prod.mk.injEq .. ▸ h
  all_goals first
    | exact RunOutcome.noConfusion h2
    | (subst h1
       rw [RunOutcome.failedHandled.injEq] at h2
       exact ⟨h2.symm, ⟨_, rfl, rfl⟩, ⟨_, rfl, rfl, rfl⟩, rfl⟩)

theorem catchBlock_not_completed (p : PipelineEnv) (st st' : DbState) (msg : String)
    (h : catchBlock p st msg = (st', RunOutcome.completed)) : False := by
  unfold catchBlock at h
  dsimp only at h
  repeat' split at h
  all_goals obtain ⟨-, h2⟩ := Prod.mk.injEq .. ▸ h
  all_goals exact RunOutcome.noConfusion h2

theorem catchBlock_missing_row (p : PipelineEnv) (st : DbState) (msg : String)
    (h : st.ocr = none) :
    (catchBlock p st msg).1.ocr = none ∧
    ∀ m, (catchBlock p st msg).2 ≠ RunOutcome.failedHandled m := by
  unfold catchBlock
  rcases hd : st.doc with - | d <;> cases hb : p.updateDocFailedOk <;>
    cases hc : p.updateOcrFailedOk <;> simp [hb, hc, hd, h]

theorem processOCR_settled_terminal (p : PipelineEnv) (st st' : DbState) (o : RunOutcome)
    (h : processOCR p st = (st', o))
    (hs : o = RunOutcome.completed ∨ ∃ m, o = RunOutcome.failedHandled m) :
    (∃ d, st'.doc = some d ∧
      (d.uploadStatus = Status.COMPLETED ∨ d.uploadStatus = Status.FAILED)) ∧
    (∃ r, st'.ocr = some r ∧
      (r.status = Status.COMPLETED ∨ r.status = Status.FAILED)) := by
  unfold processOCR at h
  split at h
  · rename_i st1 u heq
    rw [Prod.mk.injEq] at h
    obtain ⟨h1, -⟩ := h
    subst h1
    obtain ⟨⟨d, hd, hds⟩, ⟨r, hr, hrs⟩, -⟩ := tryBody_ok_state p st st1 u heq
    exact ⟨⟨d, hd, Or.inl hds⟩, ⟨r, hr, Or.inl hrs⟩⟩
  · rename_i st1 msg heq
    rcases hs with hs | ⟨m, hs⟩
    · subst hs
      exact absurd h (fun h => catchBlock_not_completed p st1 st' msg h)
    · subst hs
      obtain ⟨-, ⟨d, hd, hds⟩, ⟨r, hr, hrs, -⟩, -⟩ :=
        catchBlock_handled_state p st1 st' msg m h
      exact ⟨⟨d, hd, Or.inr hds⟩, ⟨r, hr, Or.inr hrs⟩⟩

/-- Concrete fixture: an uploaded PDF document owned by user `u1`. -/
def docA : DocRow :=
  { userId := "u1", originalName := "a.pdf", mimeType := "application/pdf"
  , fileSize := 500, filePath := "uploads/a.pdf", uploadStatus := Status.PENDING
  , createdAt := "2026-01-01T00:00:00.000Z" }

/-- Concrete fixture: a chat oracle whose call always fails. -/
def oracleFail : ChatOracle := fun _ => .error "LLM down"

/-- Concrete fixture: a chat oracle that always answers. -/
def oracleOk : ChatOracle :=
  fun _ => .ok { text := "resp", tokensUsed := some 10, model := some "gpt-4o-mini" }

/-- Concrete fixture: a readable PDF whose text layer is `"hello world"`. -/
def extEnvPdfOk : ExtractEnv :=
  { fileAccessOk := true, readFile := .ok (), pdfParseAvailable := true
  , pdfText := .ok (some "hello world"), tesseract := .error "unused", elapsedMs := 1500 }

/-- Concrete fixture: a run whose `oCRResult.upsert` throws a database error
(every other database call is up). -/
def envC1 : PipelineEnv :=
  { ext := extEnvPdfOk, llm := oracleFail
  , updateDocProcessingOk := true, findDocOk := true, upsertOcrOk := false
  , updateOcrCompletedOk := true, updateDocCompletedOk := true
  , updateDocFailedOk := true, updateOcrFailedOk := true }

/-- Concrete fixture: fresh state after upload — document PENDING, no
OCRResult row, no interactions. -/
def stC1 : DbState := { doc := some docA, ocr := none, interactions := [] }

/-- Concrete fixture: all database calls up. -/
def envOk : PipelineEnv := { envC1 with upsertOcrOk := true }

/-- Concrete fixture: all database calls up, summary oracle answers. -/
def envOk2 : PipelineEnv := { envOk with llm := oracleOk }

/-- Concrete fixture: all database calls up but the PDF parse fails. -/
def envFailExtract : PipelineEnv :=
  { envOk with ext := { extEnvPdfOk with pdfText := .error "bad xref" } }

/-- The error message produced by `envFailExtract`. -/
def failMsg : String := "OCR processing failed: PDF text extraction failed: bad xref"

/-- Final state of a handled failing run of `envFailExtract` from `stC1`. -/
def stFailFinal : DbState :=
  { doc := some { docA with uploadStatus := Status.FAILED }
  , ocr := some { emptyOcrRow with status := Status.FAILED, error := some failMsg }
  , interactions := [] }

/-- Final state of a successful run of `envOk` from `stC1` (summary oracle
fails, which is non-fatal). -/
def stOkFinal : DbState :=
  { doc := some { docA with uploadStatus := Status.COMPLETED }
  , ocr := some { extractedText := "hello world", summary := none
                , confidence := some 100, processingTime := some 1500
                , status := Status.COMPLETED, error := none }
  , interactions := [] }

/-- C1 counterexample: a run in which the document has entered PROCESSING
and the next step — the `oCRResult.upsert` — throws, so the failure happens
before any ExtractionResult row exists.  The catch block sets the document
FAILED, but its `oCRResult.update` throws on the missing row and the error
escapes `processOCR`: contrary to the claim, no ExtractionResult row is
created and no FAILED status or error message is recorded on it. -/
theorem pipeline_failure_before_upsert_loses_error :
    (processOCR envC1 stC1).1.doc = some { docA with uploadStatus := Status.FAILED } ∧
    (processOCR envC1 stC1).1.ocr = none ∧
    (processOCR envC1 stC1).2 =
      RunOutcome.escaped "Record to update not found: oCRResult" := by
  refine ⟨?_, ?_, ?_⟩ <;> decide

/-- C1 (amended): when a step after entering PROCESSING fails, the pipeline
sets `Document.uploadStatus` to FAILED and records the error on the
ExtractionResult row only when the failure path runs to completion, which
requires an ExtractionResult row to already exist at failure time: the catch
block uses `update`, never creating a row, so when no row exists the catch
block leaves `ocr` absent and cannot complete. -/
theorem pipeline_failure_records_error_on_existing_row :
    (∀ (p : PipelineEnv) (st st' : DbState) (msg : String),
        processOCR p st = (st', RunOutcome.failedHandled msg) →
        (∃ d, st'.doc = some d ∧ d.uploadStatus = Status.FAILED) ∧
        (∃ r, st'.ocr = some r ∧ r.status = Status.FAILED ∧ r.error = some msg))
  ∧ (∀ (p : PipelineEnv) (st : DbState) (msg : String), st.ocr = none →
        (catchBlock p st msg).1.ocr = none ∧
        ∀ m, (catchBlock p st msg).2 ≠ RunOutcome.failedHandled m) := by
  constructor
  · intro p st st' msg h
    unfold processOCR at h
    split at h
    · obtain ⟨-, h2⟩ := Prod.mk.injEq .. ▸ h
      exact RunOutcome.noConfusion h2
    · rename_i st1 m1 heq
      obtain ⟨hm, hd, hr, -⟩ := catchBlock_handled_state p st1 st' m1 msg h
      exact ⟨hd, by rw [hm]; exact hr⟩
  · intro p st msg h
    exact catchBlock_missing_row p st msg h

/-- Witness for the amended C1: the `envFailExtract` run fails after the
upsert, so the error is recorded; and a catch block entered with no
OCRResult row creates none. -/
theorem pipeline_failure_records_error_on_existing_row_witness :
    ((∃ d, stFailFinal.doc = some d ∧ d.uploadStatus = Status.FAILED) ∧
     (∃ r, stFailFinal.ocr = some r ∧ r.status = Status.FAILED ∧
        r.error = some failMsg)) ∧
    (catchBlock envC1 stC1 "boom").1.ocr = none := by
  refine ⟨pipeline_failure_records_error_on_existing_row.1 envFailExtract stC1
    stFailFinal failMsg (by decide), ?_⟩
  exact (pipeline_failure_records_error_on_existing_row.2 envC1 stC1 "boom" rfl).1

/-- C2: when a `processOCR` run settles — its success path or its failure
path ran to completion — the Document row and the OCRResult row both exist
with a terminal status (COMPLETED or FAILED); neither is left PROCESSING. -/
theorem pipeline_settled_statuses_terminal
    (p : PipelineEnv) (st st' : DbState) (o : RunOutcome)
    (h : processOCR p st = (st', o))
    (hs : o = RunOutcome.completed ∨ ∃ m, o = RunOutcome.failedHandled m) :
    (∃ d, st'.doc = some d ∧
      (d.uploadStatus = Status.COMPLETED ∨ d.uploadStatus = Status.FAILED) ∧
      d.uploadStatus ≠ Status.PROCESSING) ∧
    (∃ r, st'.ocr = some r ∧
      (r.status = Status.COMPLETED ∨ r.status = Status.FAILED) ∧
      r.status ≠ Status.PROCESSING) := by
  obtain ⟨⟨d, hd, hds⟩, ⟨r, hr, hrs⟩⟩ := processOCR_settled_terminal p st st' o h hs
  refine ⟨⟨d, hd, hds, ?_⟩, ⟨r, hr, hrs, ?_⟩⟩
  · rcases hds with h1 | h1 <;> simp [h1]
  · rcases hrs with h1 | h1 <;> simp [h1]

/-- Witness for C2 at the concrete successful run of `envOk` from `stC1`. -/
theorem pipeline_settled_statuses_terminal_witness :
    (∃ d, stOkFinal.doc = some d ∧
      (d.uploadStatus = Status.COMPLETED ∨ d.uploadStatus = Status.FAILED) ∧
      d.uploadStatus ≠ Status.PROCESSING) ∧
    (∃ r, stOkFinal.ocr = some r ∧
      (r.status = Status.COMPLETED ∨ r.status = Status.FAILED) ∧
      r.status ≠ Status.PROCESSING) :=
  pipeline_settled_statuses_terminal envOk stC1 stOkFinal RunOutcome.completed
    (by decide) (Or.inl rfl)

/-- C3: `reprocessOCR` verifies ownership (a non-owner gets `Access denied`
with the state untouched); when it proceeds it deletes every ExtractionResult
row and re-runs the pipeline on the cleaned state, and whenever that new run
settles (success or handled failure) exactly one ExtractionResult row exists
— `some` in a model where the unique index allows at most one — whatever the
prior row was, a FAILED one included. -/
theorem reprocess_ownership_and_single_result :
    (∀ (p : PipelineEnv) (uid : String) (st : DbState) (d : DocRow),
        st.doc = some d → d.userId ≠ uid →
        reprocessOCR p uid st = (st, Except.error "Access denied"))
  ∧ (∀ (p : PipelineEnv) (uid : String) (st st' : DbState) (o : RunOutcome),
        reprocessOCR p uid st = (st', Except.ok o) →
        processOCR p { st with ocr := none } = (st', o) ∧
        ((o = RunOutcome.completed ∨ ∃ m, o = RunOutcome.failedHandled m) →
          ∃ r, st'.ocr = some r ∧
            (r.status = Status.COMPLETED ∨ r.status = Status.FAILED))) := by
  constructor
  · intro p uid st d hd hne
    unfold reprocessOCR
    rw [hd]
    dsimp only
    rw [if_pos hne]
  · intro p uid st st' o h
    unfold reprocessOCR at h
    split at h
    · obtain ⟨-, h2⟩ := Prod.mk.injEq .. ▸ h
      exact Except.noConfusion h2
    · split at h
      · obtain ⟨-, h2⟩ := Prod.mk.injEq .. ▸ h
        exact Except.noConfusion h2
      · obtain ⟨h1, h2⟩ := Prod.mk.injEq .. ▸ h
        rw [Except.ok.injEq] at h2
        have hrun : processOCR p { st with ocr := none } = (st', o) := by
          rw [← h1, ← h2]
        refine ⟨hrun, fun hs => ?_⟩
        obtain ⟨-, r, hr, hrs⟩ := processOCR_settled_terminal p _ st' o hrun hs
        exact ⟨r, hr, hrs⟩

/-- State whose prior run ended FAILED, reprocessed in the C3 witness. -/
def stPriorFailed : DbState :=
  { stC1 with
    ocr := some { emptyOcrRow with status := Status.FAILED, error := some "old failure" } }

/-- Witness for C3: the non-owner rejection, and a reprocess over a state
whose prior ExtractionResult had FAILED, after which the new run completes
with exactly one COMPLETED row. -/
theorem reprocess_ownership_and_single_result_witness :
    reprocessOCR envOk "intruder" stC1 = (stC1, Except.error "Access denied") ∧
    ∃ r, stOkFinal.ocr = some r ∧
      (r.status = Status.COMPLETED ∨ r.status = Status.FAILED) := by
  constructor
  · exact reprocess_ownership_and_single_result.1 envOk "intruder" stC1 docA rfl
      (by decide)
  · exact (reprocess_ownership_and_single_result.2 envOk "u1" stPriorFailed
      stOkFinal RunOutcome.completed rfl).2 (Or.inl rfl)

/-- C6: when extraction succeeds with non-empty (non-blank) text but the
summary-generation call fails, the run still completes: the ExtractionResult
is persisted with the extracted text, confidence, processing time and status
COMPLETED, the Document becomes COMPLETED, and no summary is written (the
summary field keeps whatever the pre-run row held — `none` on a fresh row);
the summary failure is never turned into a FAILED status. -/
theorem summary_failure_nonfatal
    (p : PipelineEnv) (st : DbState) (d : DocRow) (out : OCRResult) (e : String)
    (hdoc : st.doc = some d)
    (h1 : p.updateDocProcessingOk = true) (h2 : p.findDocOk = true)
    (h3 : p.upsertOcrOk = true) (h4 : p.updateOcrCompletedOk = true)
    (h5 : p.updateDocCompletedOk = true)
    (hext : extractText p.ext d.filePath (some d.mimeType) = Except.ok out)
    (htext : out.text ≠ "") (htrim : (trimStr out.text).length > 0)
    (hsum : generateExplanation p.llm (takeStr 3000 out.text) (some summaryPrompt) =
      Except.error e) :
    ∃ st', processOCR p st = (st', RunOutcome.completed) ∧
      (∃ d2, st'.doc = some d2 ∧ d2.uploadStatus = Status.COMPLETED) ∧
      (∃ r, st'.ocr = some r ∧ r.status = Status.COMPLETED ∧
        r.extractedText = out.text ∧ r.confidence = some out.confidence ∧
        r.processingTime = some out.processingTime ∧
        r.summary = st.ocr.bind OCRRow.summary) := by
  rcases hocr : st.ocr with - | r0
  · refine ⟨{ doc := some { d with uploadStatus := Status.COMPLETED }
            , ocr := some { extractedText := out.text, summary := none
                          , confidence := some out.confidence
                          , processingTime := some out.processingTime
                          , status := Status.COMPLETED, error := none }
            , interactions := st.interactions }, ?_, ⟨_, rfl, rfl⟩,
        ⟨_, rfl, rfl, rfl, rfl, rfl, rfl⟩⟩
    simp [processOCR, tryBody, emptyOcrRow, h1, h2, h3, h4, h5, hdoc, hocr,
      hext, hsum, htext, htrim]
  · refine ⟨{ doc := some { d with uploadStatus := Status.COMPLETED }
            , ocr := some { extractedText := out.text, summary := r0.summary
                          , confidence := some out.confidence
                          , processingTime := some out.processingTime
                          , status := Status.COMPLETED, error := r0.error }
            , interactions := st.interactions }, ?_, ⟨_, rfl, rfl⟩,
        ⟨_, rfl, rfl, rfl, rfl, rfl, rfl⟩⟩
    simp [processOCR, tryBody, h1, h2, h3, h4, h5, hdoc, hocr, hext, hsum,
      htext, htrim]

/-- Witness for C6: the `envOk` run (summary oracle always fails) over a
fresh PDF upload ends COMPLETED with the text persisted and no summary. -/
theorem summary_failure_nonfatal_witness :
    ∃ st', processOCR envOk stC1 = (st', RunOutcome.completed) ∧
      (∃ d2, st'.doc = some d2 ∧ d2.uploadStatus = Status.COMPLETED) ∧
      (∃ r, st'.ocr = some r ∧ r.status = Status.COMPLETED ∧
        r.extractedText = "hello world" ∧ r.confidence = some 100 ∧
        r.processingTime = some 1500 ∧
        r.summary = stC1.ocr.bind OCRRow.summary) :=
  summary_failure_nonfatal envOk stC1 docA
    { text := "hello world", confidence := 100, processingTime := 1500 }
    "LLM down" rfl rfl rfl rfl rfl rfl rfl (by decide) (by decide) rfl

/-- The prompt stored on an EXPLANATION interaction:
`explainDto.context || 'Explain this document'` — JS `||`, so an absent or
empty context stores the default string. -/
def storedExplainPrompt (context : Option String) : String :=
  match context with
  | some c => if c = "" then "Explain this document" else c
  | none => "Explain this document"

/-- `DocumentsService.explainDocument(id, userId, explainDto)`: `findOne`
(existence and ownership), the COMPLETED precondition, the assistant call,
then the creation of the EXPLANATION interaction row.  `now` is the database
timestamp of the created row. -/
def explainDocument (llm : ChatOracle) (userId : String) (context : Option String)
    (now : String) (st : DbState) : DbState × Except String LLMInteraction :=
  match st.doc with
  | none => (st, .error "Document not found")
  | some d =>
  if d.userId ≠ userId then (st, .error "Access denied") else
  match st.ocr with
  | none => (st, .error "OCR processing not completed yet")
  | some r =>
  if r.status ≠ Status.COMPLETED then (st, .error "OCR processing not completed yet") else
  match generateExplanation llm r.extractedText context with
  | .error e => (st, .error e)
  | .ok resp =>
    let it : LLMInteraction :=
      { type := InteractionType.EXPLANATION
      , prompt := storedExplainPrompt context
      , response := resp.text, tokensUsed := resp.tokensUsed, model := resp.model
      , createdAt := now }
    ({ st with interactions := it :: st.interactions }, .ok it)

/-- `DocumentsService.queryDocument(id, userId, queryDto)`: `findOne`, the
COMPLETED precondition, loading of the 5 most recent interactions
(`orderBy createdAt desc, take 5` — the head of the newest-first list), the
assistant call, then the creation of the QUERY interaction row with the raw
question as prompt. -/
def queryDocument (llm : ChatOracle) (userId query now : String) (st : DbState) :
    DbState × Except String LLMInteraction :=
  match st.doc with
  | none => (st, .error "Document not found")
  | some d =>
  if d.userId ≠ userId then (st, .error "Access denied") else
  match st.ocr with
  | none => (st, .error "OCR processing not completed yet")
  | some r =>
  if r.status ≠ Status.COMPLETED then (st, .error "OCR processing not completed yet") else
  match answerQuery llm r.extractedText query (st.interactions.take 5) with
  | .error e => (st, .error e)
  | .ok resp =>
    let it : LLMInteraction :=
      { type := InteractionType.QUERY
      , prompt := query
      , response := resp.text, tokensUsed := resp.tokensUsed, model := resp.model
      , createdAt := now }
    ({ st with interactions := it :: st.interactions }, .ok it)

/-- C4: on a document whose OCRResult is absent or not COMPLETED, both
`explainDocument` and `queryDocument` fail with the not-ready error
(`BadRequestException('OCR processing not completed yet')`) and leave the
state — in particular the interaction log — unchanged. -/
theorem not_completed_rejected_without_interaction :
    (∀ (llm : ChatOracle) (uid : String) (ctx : Option String) (now : String)
        (st : DbState) (d : DocRow),
        st.doc = some d → d.userId = uid →
        (st.ocr = none ∨ ∃ r, st.ocr = some r ∧ r.status ≠ Status.COMPLETED) →
        explainDocument llm uid ctx now st =
          (st, .error "OCR processing not completed yet"))
  ∧ (∀ (llm : ChatOracle) (uid q now : String) (st : DbState) (d : DocRow),
        st.doc = some d → d.userId = uid →
        (st.ocr = none ∨ ∃ r, st.ocr = some r ∧ r.status ≠ Status.COMPLETED) →
        queryDocument llm uid q now st =
          (st, .error "OCR processing not completed yet")) := by
  constructor
  · intro llm uid ctx now st d hdoc huid hocr
    unfold explainDocument
    rw [hdoc]
    dsimp only
    rw [if_neg (by simp [huid])]
    rcases hocr with hocr | ⟨r, hocr, hst⟩ <;> rw [hocr]
    dsimp only
    rw [if_pos hst]
  · intro llm uid q now st d hdoc huid hocr
    unfold queryDocument
    rw [hdoc]
    dsimp only
    rw [if_neg (by simp [huid])]
    rcases hocr with hocr | ⟨r, hocr, hst⟩ <;> rw [hocr]
    dsimp only
    rw [if_pos hst]

/-- State fixture: extraction still PROCESSING (fresh upsert row). -/
def stProcessing : DbState :=
  { doc := some docA, ocr := some emptyOcrRow, interactions := [] }

/-- Witness for C4: on a document whose extraction is still PROCESSING, both
calls are rejected and the state is unchanged. -/
theorem not_completed_rejected_without_interaction_witness :
    explainDocument oracleOk "u1" (some "ctx") "t1" stProcessing =
      (stProcessing, .error "OCR processing not completed yet") ∧
    queryDocument oracleOk "u1" "What is the total?" "t1" stProcessing =
      (stProcessing, .error "OCR processing not completed yet") :=
  ⟨not_completed_rejected_without_interaction.1 oracleOk "u1" (some "ctx") "t1"
      stProcessing docA rfl rfl (Or.inr ⟨emptyOcrRow, rfl, by decide⟩),
   not_completed_rejected_without_interaction.2 oracleOk "u1" "What is the total?"
      "t1" stProcessing docA rfl rfl (Or.inr ⟨emptyOcrRow, rfl, by decide⟩)⟩

/-- C9: once the COMPLETED precondition passes, the assistant is called
before the Interaction row is created; if the assistant call throws, both
operations propagate the error with the state — and thus the interaction
log — unchanged. -/
theorem assistant_failure_persists_no_interaction :
    (∀ (llm : ChatOracle) (uid : String) (ctx : Option String) (now e : String)
        (st : DbState) (d : DocRow) (r : OCRRow),
        st.doc = some d → d.userId = uid → st.ocr = some r →
        r.status = Status.COMPLETED →
        generateExplanation llm r.extractedText ctx = .error e →
        explainDocument llm uid ctx now st = (st, .error e))
  ∧ (∀ (llm : ChatOracle) (uid q now e : String) (st : DbState) (d : DocRow)
        (r : OCRRow),
        st.doc = some d → d.userId = uid → st.ocr = some r →
        r.status = Status.COMPLETED →
        answerQuery llm r.extractedText q (st.interactions.take 5) = .error e →
        queryDocument llm uid q now st = (st, .error e)) := by
  constructor
  · intro llm uid ctx now e st d r hdoc huid hocr hst hllm
    unfold explainDocument
    rw [hdoc]
    dsimp only
    rw [if_neg (by simp [huid]), hocr]
    dsimp only
    rw [if_neg (by simp [hst]), hllm]
  · intro llm uid q now e st d r hdoc huid hocr hst hllm
    unfold queryDocument
    rw [hdoc]
    dsimp only
    rw [if_neg (by simp [huid]), hocr]
    dsimp only
    rw [if_neg (by simp [hst]), hllm]

/-- Witness for C9: with the failing oracle, both calls on a COMPLETED
document return the assistant error and leave the state unchanged. -/
theorem assistant_failure_persists_no_interaction_witness :
    explainDocument oracleFail "u1" (some "ctx") "t1" stOkFinal =
      (stOkFinal, .error "LLM down") ∧
    queryDocument oracleFail "u1" "What is the total?" "t1" stOkFinal =
      (stOkFinal, .error "LLM down") :=
  ⟨assistant_failure_persists_no_interaction.1 oracleFail "u1" (some "ctx") "t1"
      "LLM down" stOkFinal { docA with uploadStatus := Status.COMPLETED } _
      rfl rfl rfl rfl rfl,
   assistant_failure_persists_no_interaction.2 oracleFail "u1" "What is the total?"
      "t1" "LLM down" stOkFinal { docA with uploadStatus := Status.COMPLETED } _
      rfl rfl rfl rfl rfl⟩

set_option maxRecDepth 4000 in
theorem storedExplainPrompt_ne_explanationPrompt (text : String) (ctx : Option String) :
    storedExplainPrompt ctx ≠ explanationPrompt text ctx := by
  have hlt : ("Explain this document" : String).length <
      ("Based on the following extracted text from a document, provide a clear and comprehensive explanation. Identify key information, dates, amounts, parties involved, and any important details.\n\nExtracted text:\n" : String).length := by
    decide
  have hpre : 0 <
      ("Based on the following extracted text from a document, provide a clear and comprehensive explanation. Context: " : String).length := by
    decide
  intro h
  have hl := congrArg String.length h
  rcases ctx with - | c
  · simp only [storedExplainPrompt, explanationPrompt, generalExplanationPrompt,
      String.length_append] at hl
    omega
  · by_cases hc : c = ""
    · simp [storedExplainPrompt, explanationPrompt, generalExplanationPrompt,
        hc, String.length_append] at hl
      omega
    · simp only [storedExplainPrompt, explanationPrompt, if_neg hc,
        String.length_append] at hl
      omega

/-- C10: a successful `explainDocument` stores as the Interaction's prompt
exactly the caller context when it is a non-empty string and the literal
`Explain this document` otherwise; the stored prompt is computed from the
context alone (never from the extracted text) and always differs from the
full prompt sent to the assistant, which embeds the extracted text. -/
theorem explain_stores_raw_context_prompt
    (llm : ChatOracle) (uid : String) (ctx : Option String) (now : String)
    (st st' : DbState) (d : DocRow) (r : OCRRow) (it : LLMInteraction)
    (hdoc : st.doc = some d) (huid : d.userId = uid) (hocr : st.ocr = some r)
    (hst : r.status = Status.COMPLETED)
    (h : explainDocument llm uid ctx now st = (st', .ok it)) :
    it.prompt = storedExplainPrompt ctx ∧
    (∀ c, ctx = some c → c ≠ "" → it.prompt = c) ∧
    ((ctx = none ∨ ctx = some "") → it.prompt = "Explain this document") ∧
    it.type = InteractionType.EXPLANATION ∧
    st'.interactions = it :: st.interactions ∧
    it.prompt ≠ explanationPrompt r.extractedText ctx := by
  unfold explainDocument at h
  rw [hdoc] at h
  dsimp only at h
  rw [if_neg (by simp [huid]), hocr] at h
  dsimp only at h
  rw [if_neg (by simp [hst])] at h
  split at h
  · obtain ⟨-, h2⟩ := Prod.mk.injEq .. ▸ h
    exact Except.noConfusion h2
  · obtain ⟨h1, h2⟩ := Prod.mk.injEq .. ▸ h
    rw [Except.ok.injEq] at h2
    subst h1
    subst h2
    refine ⟨rfl, ?_, ?_, rfl, rfl, storedExplainPrompt_ne_explanationPrompt _ ctx⟩
    · intro c hc hne
      subst hc
      simp [storedExplainPrompt, hne]
    · intro hc
      rcases hc with hc | hc <;> subst hc <;> simp [storedExplainPrompt]

/-- The OCRResult row held by `stOkFinal`. -/
def rowOkW : OCRRow :=
  { extractedText := "hello world", summary := none, confidence := some 100
  , processingTime := some 1500, status := Status.COMPLETED, error := none }

/-- The EXPLANATION interaction created in the C10 witness run. -/
def itW : LLMInteraction :=
  { type := InteractionType.EXPLANATION, prompt := "focus on totals"
  , response := "resp", tokensUsed := some 10, model := some "gpt-4o-mini"
  , createdAt := "t2" }

/-- State after the C10 witness run. -/
def stW : DbState := { stOkFinal with interactions := [itW] }

/-- Witness for C10 at a concrete successful explain call with the non-empty
context `focus on totals`: the stored prompt is the raw context. -/
theorem explain_stores_raw_context_prompt_witness :
    itW.prompt = storedExplainPrompt (some "focus on totals") ∧
    (∀ c, (some "focus on totals" : Option String) = some c → c ≠ "" → itW.prompt = c) ∧
    (((some "focus on totals" : Option String) = none ∨
      (some "focus on totals" : Option String) = some "") →
        itW.prompt = "Explain this document") ∧
    itW.type = InteractionType.EXPLANATION ∧
    stW.interactions = itW :: stOkFinal.interactions ∧
    itW.prompt ≠ explanationPrompt "hello world" (some "focus on totals") :=
  explain_stores_raw_context_prompt oracleOk "u1" (some "focus on totals") "t2"
    stOkFinal stW { docA with uploadStatus := Status.COMPLETED } rowOkW itW
    rfl rfl rfl rfl rfl

theorem pairTurns_length (l : List LLMInteraction) :
    ((l.map (fun i => [ChatMessage.mk ChatRole.user i.prompt,
                       ChatMessage.mk ChatRole.assistant i.response])).flatten).length
      = 2 * l.length := by
  induction l with
  | nil => rfl
  | cons x xs ih =>
    simp only [List.map_cons, List.flatten_cons, List.length_append, List.length_cons,
      List.length_nil, ih]
    omega

theorem interactionTurns_length (l : List LLMInteraction) :
    (interactionTurns l).length = 2 * l.length := by
  unfold interactionTurns
  rw [pairTurns_length, List.length_reverse]

/-- C7: a successful `queryDocument` call persists a QUERY interaction whose
prompt is exactly the raw question, prepends it to the log, and calls the
assistant with: the system message, then the replay of (at most) the 5 most
recent prior interactions — reversed to oldest-first, each contributing an
alternating user/assistant pair, hence at most 10 replayed turns — then one
final user turn whose content is the extracted text followed by the literal
question. -/
theorem query_recent_context_and_raw_prompt
    (llm : ChatOracle) (uid q now : String) (st st' : DbState) (d : DocRow)
    (r : OCRRow) (it : LLMInteraction)
    (hdoc : st.doc = some d) (huid : d.userId = uid) (hocr : st.ocr = some r)
    (hst : r.status = Status.COMPLETED)
    (h : queryDocument llm uid q now st = (st', .ok it)) :
    it.prompt = q ∧
    it.type = InteractionType.QUERY ∧
    st'.interactions = it :: st.interactions ∧
    llm (ChatMessage.mk ChatRole.system querySystemContent ::
        (interactionTurns (st.interactions.take 5) ++
         [ChatMessage.mk ChatRole.user (queryPrompt r.extractedText q)])) =
      .ok { text := it.response, tokensUsed := it.tokensUsed, model := it.model } ∧
    (interactionTurns (st.interactions.take 5)).length ≤ 10 ∧
    interactionTurns (st.interactions.take 5) =
      ((st.interactions.take 5).reverse.map
        (fun i => [ChatMessage.mk ChatRole.user i.prompt,
                   ChatMessage.mk ChatRole.assistant i.response])).flatten ∧
    queryPrompt r.extractedText q =
      queryPromptHead ++ r.extractedText ++ "\n\nUser question: " ++ q := by
  unfold queryDocument at h
  rw [hdoc] at h
  dsimp only at h
  rw [if_neg (by simp [huid]), hocr] at h
  dsimp only at h
  rw [if_neg (by simp [hst])] at h
  split at h
  · obtain ⟨-, h2⟩ := Prod.mk.injEq .. ▸ h
    exact Except.noConfusion h2
  · rename_i resp heq
    obtain ⟨h1, h2⟩ := Prod.mk.injEq .. ▸ h
    rw [Except.ok.injEq] at h2
    subst h1
    subst h2
    refine ⟨rfl, rfl, rfl, ?_, ?_, rfl, rfl⟩
    · unfold answerQuery answerQueryMessages at heq
      exact heq
    · rw [interactionTurns_length]
      have h5 : (st.interactions.take 5).length ≤ 5 := by
        simp [List.length_take]
      omega

/-- The QUERY interaction created in the C7 witness run. -/
def itQ : LLMInteraction :=
  { type := InteractionType.QUERY, prompt := "What is the total?"
  , response := "resp", tokensUsed := some 10, model := some "gpt-4o-mini"
  , createdAt := "t3" }

/-- Witness for C7: a query over `stW` (one prior interaction) with the
answering oracle. -/
theorem query_recent_context_and_raw_prompt_witness :
    itQ.prompt = "What is the total?" ∧
    itQ.type = InteractionType.QUERY ∧
    ({ stW with interactions := itQ :: stW.interactions } : DbState).interactions =
      itQ :: stW.interactions ∧
    oracleOk (ChatMessage.mk ChatRole.system querySystemContent ::
        (interactionTurns (stW.interactions.take 5) ++
         [ChatMessage.mk ChatRole.user (queryPrompt "hello world" "What is the total?")])) =
      .ok { text := itQ.response, tokensUsed := itQ.tokensUsed, model := itQ.model } ∧
    (interactionTurns (stW.interactions.take 5)).length ≤ 10 ∧
    interactionTurns (stW.interactions.take 5) =
      ((stW.interactions.take 5).reverse.map
        (fun i => [ChatMessage.mk ChatRole.user i.prompt,
                   ChatMessage.mk ChatRole.assistant i.response])).flatten ∧
    queryPrompt "hello world" "What is the total?" =
      queryPromptHead ++ "hello world" ++ "\n\nUser question: " ++ "What is the total?" :=
  query_recent_context_and_raw_prompt oracleOk "u1" "What is the total?" "t3"
    stW { stW with interactions := itQ :: stW.interactions }
    { docA with uploadStatus := Status.COMPLETED } rowOkW itQ
    rfl rfl rfl rfl rfl

/-- JS `String.prototype.startsWith`. -/
def strStartsWith (s pre : String) : Bool := decide (pre.data <+: s.data)

/-- Rendering of a number in the report.  JS `toFixed(2)` digit formatting
is abstracted as the standard rendering; the claims only concern which lines
appear, never the decimal digits. -/
def fmtNum (q : Rat) : String := toString q

/-- The status strings stored in the database are the enum names. -/
def statusText : Status → String
  | Status.PENDING => "PENDING"
  | Status.PROCESSING => "PROCESSING"
  | Status.COMPLETED => "COMPLETED"
  | Status.FAILED => "FAILED"

/-- The interaction-type strings stored in the database. -/
def interactionTypeText : InteractionType → String
  | InteractionType.EXPLANATION => "EXPLANATION"
  | InteractionType.QUERY => "QUERY"

/-- The 55-character heavy separator of the report. -/
def heavyLine : String := ⟨List.replicate 55 (Char.ofNat 0x2550)⟩

/-- The 55-character light separator of the report. -/
def lightLine : String := ⟨List.replicate 55 (Char.ofNat 0x2500)⟩

/-- A report banner: separator, title, separator, blank line. -/
def banner (title : String) : List String := [heavyLine, title, heavyLine, ""]

/-- The `DOCUMENT INFORMATION` header of the report built by
`downloadDocument`.  The report is modelled as its list of lines (each JS
`\n` ends a line; a `\n\n` contributes an empty line). -/
def headerLines (d : DocRow) : List String :=
  banner "DOCUMENT INFORMATION" ++
  [ "Document Name: " ++ d.originalName
  , "File Size: " ++ fmtNum ((d.fileSize : Rat) / 1024) ++ " KB"
  , "File Type: " ++ d.mimeType
  , "Uploaded: " ++ d.createdAt
  , "Status: " ++ statusText d.uploadStatus
  , "" ]

/-- The extraction section of the report: present only for a COMPLETED or
FAILED OCRResult.  `if (ocrResult.confidence)` is a JS truthiness test on a
number, so a zero (or absent) confidence skips both the confidence line and
the processing-time line; the ternary `ocrResult.processingTime ? ... : 'N/A'`
is likewise a truthiness test, so a zero (or absent) processing time renders
`N/A`; `if (ocrResult.summary)` and `if (ocrResult.error)` are truthiness
tests on strings. -/
def extractionLines (ocr : Option OCRRow) : List String :=
  match ocr with
  | some r =>
    if r.status = Status.COMPLETED then
      banner "EXTRACTED TEXT (OCR)" ++
      (match r.confidence with
       | some c =>
         if c = 0 then []
         else
           [ "OCR Confidence: " ++ fmtNum c ++ "%"
           , "Processing Time: " ++
               (match r.processingTime with
                | some t => if t = 0 then "N/A" else fmtNum (t / 1000) ++ "s"
                | none => "N/A")
           , "" ]
       | none => []) ++
      (match r.summary with
       | some s => if s = "" then [] else ["Summary: " ++ s, ""]
       | none => []) ++
      [r.extractedText, ""]
    else if r.status = Status.FAILED then
      banner "OCR STATUS: FAILED" ++
      (match r.error with
       | some e => if e = "" then [] else ["Error: " ++ e, ""]
       | none => [])
    else []
  | none => []

/-- The interactions section of the report: numbered newest-first blocks, or
a placeholder when none exist.  `if (interaction.model)` and
`if (interaction.tokensUsed)` are truthiness tests. -/
def interactionLines (its : List LLMInteraction) : List String :=
  if its.length > 0 then
    banner ("AI INTERACTIONS (" ++ toString its.length ++ " total)") ++
    (its.enum.map (fun pr =>
      [ lightLine
      , "Interaction #" ++ toString (pr.1 + 1) ++ " - " ++ interactionTypeText pr.2.type
      , lightLine
      , "Date: " ++ pr.2.createdAt ] ++
      (match pr.2.model with
       | some m => if m = "" then [] else ["Model: " ++ m]
       | none => []) ++
      (match pr.2.tokensUsed with
       | some t => if t = 0 then [] else ["Tokens Used: " ++ toString t]
       | none => []) ++
      [""] ++
      (if pr.2.type = InteractionType.QUERY then ["QUESTION:", pr.2.prompt, ""] else []) ++
      ["RESPONSE:", pr.2.response, "", ""])).flatten
  else
    banner "AI INTERACTIONS" ++
    [ "No AI interactions yet."
    , "You can generate explanations or ask questions about this document."
    , "" ]

/-- `DocumentsService.downloadDocument(id, userId)`: `findOne` (existence
and ownership), the backing-file read (`fileOk` is its outcome; a missing
file raises `NotFoundException`), then the generated report, modelled as its
list of lines (the returned original-file bytes and names carry no logic). -/
def downloadDocument (fileOk : Bool) (userId : String) (st : DbState) :
    Except String (List String) :=
  match st.doc with
  | none => .error "Document not found"
  | some d =>
  if d.userId ≠ userId then .error "Access denied" else
  if !fileOk then .error ("File not found on server. Path: " ++ d.filePath) else
  .ok (headerLines d ++ extractionLines st.ocr ++ interactionLines st.interactions)

/-- A COMPLETED extraction whose engine confidence is exactly 0. -/
def rowC8 : OCRRow :=
  { extractedText := "text", summary := none, confidence := some 0
  , processingTime := some 1500, status := Status.COMPLETED, error := none }

/-- State fixture for the C8 counterexample. -/
def stC8 : DbState :=
  { doc := some { docA with uploadStatus := Status.COMPLETED }
  , ocr := some rowC8, interactions := [] }

/-- C8 counterexample: a COMPLETED extraction with confidence 0 — a value
inside the claimed range [0, 100] — whose report extraction section contains
neither the confidence line nor the processing-time line: the section is
exactly the banner plus the extracted text, because `if (ocrResult.confidence)`
is false for 0. -/
theorem report_zero_confidence_omits_lines_counterexample :
    rowC8.status = Status.COMPLETED ∧ rowC8.confidence = some 0 ∧
    rowC8.processingTime = some 1500 ∧
    extractionLines (some rowC8) =
      [heavyLine, "EXTRACTED TEXT (OCR)", heavyLine, "", "text", ""] ∧
    (extractionLines (some rowC8)).all
      (fun l => !strStartsWith l "OCR Confidence: " &&
                !strStartsWith l "Processing Time: ") = true ∧
    downloadDocument true "u1" stC8 =
      .ok (headerLines { docA with uploadStatus := Status.COMPLETED } ++
           extractionLines (some rowC8) ++ interactionLines []) := by
  refine ⟨rfl, rfl, rfl, by decide, by decide, rfl⟩

/-- C8 (amended): the report of a COMPLETED extraction contains the
confidence percentage and the processing time in seconds for every non-zero
confidence in (0, 100] and non-zero processing time — zero is rendered
truthy-false by the code, omitting both lines when confidence is 0 and
printing `N/A` in place of the seconds when processingTime is 0 — together
with the full extracted text. -/
theorem report_includes_confidence_when_nonzero
    (uid : String) (st : DbState) (d : DocRow) (r : OCRRow) (c t : Rat)
    (lines : List String)
    (hdoc : st.doc = some d) (huid : d.userId = uid)
    (h : downloadDocument true uid st = .ok lines)
    (hocr : st.ocr = some r) (hst : r.status = Status.COMPLETED)
    (hconf : r.confidence = some c) (hc : c ≠ 0) (hpt : r.processingTime = some t)
    (ht : t ≠ 0) :
    ("OCR Confidence: " ++ fmtNum c ++ "%") ∈ lines ∧
    ("Processing Time: " ++ fmtNum (t / 1000) ++ "s") ∈ lines ∧
    r.extractedText ∈ lines := by
  unfold downloadDocument at h
  rw [hdoc] at h
  dsimp only at h
  rw [if_neg (by simp [huid])] at h
  rw [hocr, if_neg (by decide)] at h
  rw [Except.ok.injEq] at h
  subst h
  have hmem : ∀ x : String, x ∈ extractionLines (some r) →
      x ∈ headerLines d ++ extractionLines (some r) ++ interactionLines st.interactions := by
    intro x hx
    simp [List.mem_append, hx]
  have hext : ("OCR Confidence: " ++ fmtNum c ++ "%") ∈ extractionLines (some r) ∧
      ("Processing Time: " ++ fmtNum (t / 1000) ++ "s") ∈ extractionLines (some r) ∧
      r.extractedText ∈ extractionLines (some r) := by
    unfold extractionLines
    dsimp only
    rw [if_pos hst, hconf, hpt]
    dsimp only
    rw [if_neg hc, if_neg ht]
    rcases r.summary with - | s
    · simp [banner, String.append_assoc]
    · by_cases hs : s = "" <;> simp [banner, hs, String.append_assoc]
  exact ⟨hmem _ hext.1, hmem _ hext.2.1, hmem _ hext.2.2⟩

/-- Witness for the amended C8: the COMPLETED run state `stOkFinal`
(confidence 100, processing time 1500 ms) downloads to a report carrying
both lines and the text. -/
theorem report_includes_confidence_when_nonzero_witness :
    ("OCR Confidence: " ++ fmtNum 100 ++ "%") ∈
      (headerLines { docA with uploadStatus := Status.COMPLETED } ++
       extractionLines stOkFinal.ocr ++ interactionLines []) ∧
    ("Processing Time: " ++ fmtNum ((1500 : Rat) / 1000) ++ "s") ∈
      (headerLines { docA with uploadStatus := Status.COMPLETED } ++
       extractionLines stOkFinal.ocr ++ interactionLines []) ∧
    rowOkW.extractedText ∈
      (headerLines { docA with uploadStatus := Status.COMPLETED } ++
       extractionLines stOkFinal.ocr ++ interactionLines []) :=
  report_includes_confidence_when_nonzero "u1" stOkFinal
    { docA with uploadStatus := Status.COMPLETED } rowOkW 100 1500 _
    rfl rfl rfl rfl rfl rfl (by decide) rfl (by decide)

end PaggoCase
